import Mathlib

/-!
Verification of the photo-quality validation pipeline of the CropFresh AI
service: the mock quality model (statistics extraction and scoring), the
validation orchestrator, the suggestion localizer and the gRPC boundary
defaulting. TypeScript numbers are modelled as real numbers, image byte
buffers as lists of naturals, and optional fields as `Option`.
-/

namespace CropfreshAI

noncomputable section

/-- Quality grade: the closed enumeration `'A' | 'B' | 'C' | 'REJECT'`. -/
inductive Grade where
  | A
  | B
  | C
  | REJECT
deriving DecidableEq

/-- Quality issue type: the closed enumeration of `QualityIssueType`.
POOR_FRAMING is reserved and unused by the current rules. -/
inductive QualityIssueType where
  | TOO_DARK
  | TOO_BRIGHT
  | BLURRY
  | NO_PRODUCE
  | LOW_RESOLUTION
  | POOR_FRAMING
deriving DecidableEq

/-- Image statistics extracted from a photo (`ImageStats`). -/
structure ImageStats where
  width : ℝ
  height : ℝ
  brightness : ℝ
  contrast : ℝ
  sharpness : ℝ
  hasProduceColors : Bool

/-- A detected quality issue (`QualityIssue`).  The `message` and
`suggestion` text fields of the source are constant strings (one of them
interpolates the dimensions); no claim depends on them, so the embedding
carries the `type` and `severity` fields. -/
structure QualityIssue where
  type : QualityIssueType
  severity : ℝ

/-- Model output (`QualityPrediction`). -/
structure QualityPrediction where
  grade : Grade
  confidence : ℝ
  issues : List QualityIssue

/-- `MockQualityModel.MIN_WIDTH`. -/
def MIN_WIDTH : ℝ := 1024
/-- `MockQualityModel.MIN_HEIGHT`. -/
def MIN_HEIGHT : ℝ := 768
/-- `MockQualityModel.MIN_BRIGHTNESS` (too-dark threshold). -/
def MIN_BRIGHTNESS : ℝ := 40
/-- `MockQualityModel.MAX_BRIGHTNESS` (too-bright threshold). -/
def MAX_BRIGHTNESS : ℝ := 220
/-- `MockQualityModel.MIN_SHARPNESS` (blur threshold). -/
def MIN_SHARPNESS : ℝ := 100
/-- `MockQualityModel.MIN_CONTRAST` (declared in the source, unused by the
current checks). -/
def MIN_CONTRAST : ℝ := 30

/-- The issue-accumulation pass of `MockQualityModel.predict`: starting from
`([], 1.0)`, each check appends at most one issue and deducts from the score.
Returns the issue list and the raw (unclamped) score. -/
def predictRaw (stats : ImageStats) : List QualityIssue × ℝ :=
  let acc0 : List QualityIssue × ℝ := ([], 1)
  -- Check resolution
  let acc1 :=
    if stats.width < MIN_WIDTH ∨ stats.height < MIN_HEIGHT then
      (acc0.1 ++ [⟨QualityIssueType.LOW_RESOLUTION, 0.5⟩], acc0.2 - 0.2)
    else acc0
  -- Check brightness
  let acc2 :=
    if stats.brightness < MIN_BRIGHTNESS then
      let severity := (MIN_BRIGHTNESS - stats.brightness) / MIN_BRIGHTNESS
      (acc1.1 ++ [⟨QualityIssueType.TOO_DARK, severity⟩], acc1.2 - 0.25 * severity)
    else if stats.brightness > MAX_BRIGHTNESS then
      let severity := (stats.brightness - MAX_BRIGHTNESS) / (255 - MAX_BRIGHTNESS)
      (acc1.1 ++ [⟨QualityIssueType.TOO_BRIGHT, severity⟩], acc1.2 - 0.25 * severity)
    else acc1
  -- Check sharpness (blur detection)
  let acc3 :=
    if stats.sharpness < MIN_SHARPNESS then
      let severity := (MIN_SHARPNESS - stats.sharpness) / MIN_SHARPNESS
      (acc2.1 ++ [⟨QualityIssueType.BLURRY, severity⟩], acc2.2 - 0.3 * severity)
    else acc2
  -- Check for produce detection
  let acc4 :=
    if !stats.hasProduceColors then
      (acc3.1 ++ [⟨QualityIssueType.NO_PRODUCE, 0.8⟩], acc3.2 - 0.4)
    else acc3
  acc4

/-- `MockQualityModel.scoreToGrade`. -/
def scoreToGrade (score : ℝ) : Grade :=
  if score ≥ 0.85 then Grade.A
  else if score ≥ 0.65 then Grade.B
  else if score ≥ 0.45 then Grade.C
  else Grade.REJECT

/-- `MockQualityModel.calculateConfidence`: start at 0.9, subtract
`0.1 × severity` per issue, subtract a flat 0.1 in the borderline brightness
band, clamp to `[0.3, 0.99]`. -/
def calculateConfidence (stats : ImageStats) (issues : List QualityIssue) : ℝ :=
  let confidence : ℝ := 0.9
  let confidence := issues.foldl (fun c issue => c - 0.1 * issue.severity) confidence
  let confidence :=
    if stats.brightness > 180 ∨ stats.brightness < 60 then confidence - 0.1
    else confidence
  max 0.3 (min 0.99 confidence)

/-- `MockQualityModel.predict`: run the checks, clamp the score to `[0,1]`,
derive the grade and the confidence. -/
def predict (stats : ImageStats) : QualityPrediction :=
  let acc := predictRaw stats
  let score := max 0 (min 1 acc.2)
  { grade := scoreToGrade score
    confidence := calculateConfidence stats acc.1
    issues := acc.1 }

/-- `MockQualityModel.mockBrightness`: mean of the first
`min(1000, length)` bytes, 128 when fewer than 100 bytes are present. -/
def mockBrightness (buffer : List ℕ) : ℝ :=
  if buffer.length < 100 then 128
  else
    let sampleSize := min 1000 buffer.length
    ((buffer.take sampleSize).map (fun b => (b : ℝ))).sum / sampleSize

/-- `MockQualityModel.mockContrast`: square root of the mean squared
deviation of the same byte window around `mockBrightness`, 50 when fewer
than 100 bytes are present. -/
def mockContrast (buffer : List ℕ) : ℝ :=
  let mean := mockBrightness buffer
  if buffer.length < 100 then 50
  else
    let sampleSize := min 1000 buffer.length
    Real.sqrt
      (((buffer.take sampleSize).map (fun b => ((b : ℝ) - mean) ^ 2)).sum / sampleSize)

/-- `MockQualityModel.mockSharpness`: contrast × 3 as a proxy, 150 when
fewer than 100 bytes are present. -/
def mockSharpness (buffer : List ℕ) : ℝ :=
  if buffer.length < 100 then 150
  else mockContrast buffer * 3

/-- `MockQualityModel.mockProduceDetection`: produce is assumed present iff
the buffer holds more than 10000 bytes. -/
def mockProduceDetection (buffer : List ℕ) : Bool :=
  decide (buffer.length > 10000)

/-- `MockQualityModel.extractStats`. -/
def extractStats (imageBuffer : List ℕ) (width height : ℝ) : ImageStats :=
  { width := width
    height := height
    brightness := mockBrightness imageBuffer
    contrast := mockContrast imageBuffer
    sharpness := mockSharpness imageBuffer
    hasProduceColors := mockProduceDetection imageBuffer }

/-- `PhotoValidationRequest`. -/
structure PhotoValidationRequest where
  photoUrl : String
  width : ℝ
  height : ℝ
  imageBuffer : Option (List ℕ)

/-- An issue as shaped for the caller (`PhotoIssue`); its `message` and
`suggestion` strings are copied verbatim from the model issue and are
omitted as in `QualityIssue`. -/
structure PhotoIssue where
  type : QualityIssueType

/-- `PhotoValidationResult`. -/
structure PhotoValidationResult where
  isValid : Bool
  qualityScore : ℝ
  grade : Grade
  confidence : ℝ
  issues : List PhotoIssue

/-- `PhotoValidationService.getImageStats`: analyze the buffer when present,
otherwise synthesize neutral statistics from the declared dimensions. -/
def getImageStats (request : PhotoValidationRequest) : ImageStats :=
  match request.imageBuffer with
  | some buffer => extractStats buffer request.width request.height
  | none =>
      { width := request.width
        height := request.height
        brightness := 140
        contrast := 50
        sharpness := 180
        hasProduceColors := true }

/-- The grade → score lookup table of `PhotoValidationService.gradeToScore`
(a string-keyed record in the source). -/
def scoreTable (grade : String) : Option ℝ :=
  if grade = "A" then some 0.95
  else if grade = "B" then some 0.75
  else if grade = "C" then some 0.55
  else if grade = "REJECT" then some 0.25
  else none

/-- The string carried by a `Grade` value (the grades are string literals in
the source). -/
def gradeKey : Grade → String
  | Grade.A => "A"
  | Grade.B => "B"
  | Grade.C => "C"
  | Grade.REJECT => "REJECT"

/-- `PhotoValidationService.gradeToScore`: `scores[grade] || 0.5`.  Every
table value is nonzero, so the JavaScript falsy-default `|| 0.5` coincides
with defaulting on a missing key. -/
def gradeToScore (grade : Grade) : ℝ :=
  (scoreTable (gradeKey grade)).getD 0.5

/-- `PhotoValidationService.validatePhoto`: resolve statistics, run the
model, and shape the validation result.  The logging and the timing are
side effects with no influence on the returned value; no step of the
embedded pipeline can throw, so the catch-and-rethrow branch is dead. -/
def validatePhoto (request : PhotoValidationRequest) : PhotoValidationResult :=
  let stats := getImageStats request
  let prediction := predict stats
  let isValid : Bool :=
    decide (prediction.grade ≠ Grade.REJECT) && decide (prediction.issues.length = 0)
  let qualityScore := gradeToScore prediction.grade
  { isValid := isValid
    qualityScore := qualityScore
    grade := prediction.grade
    confidence := prediction.confidence
    issues := prediction.issues.map (fun issue => { type := issue.type }) }

/-- The static two-level localization table of
`PhotoValidationService.getSuggestion`: issue type → language → text. -/
def lookupSuggestion (issueType language : String) : Option String :=
  if issueType = "TOO_DARK" then
    if language = "en" then some "Move to brighter lighting or use flash"
    else if language = "kn" then some "ಹೆಚ್ಚು ಬೆಳಕಿಗೆ ಹೋಗಿ ಅಥವಾ ಫ್ಲಾಶ್ ಬಳಸಿ"
    else if language = "hi" then some "तेज रोशनी में जाएं या फ्लैश का उपयोग करें"
    else if language = "ta" then some "பிரகாசமான வெளிச்சத்திற்கு செல்லவும் அல்லது ஃபிளாஷ் பயன்படுத்தவும்"
    else if language = "te" then some "ప్రకాశవంతమైన వెలుతురులో వెళ్ళండి లేదా ఫ్లాష్ ఉపయోగించండి"
    else none
  else if issueType = "TOO_BRIGHT" then
    if language = "en" then some "Move away from direct sunlight"
    else if language = "kn" then some "ನೇರ ಸೂರ್ಯನ ಬೆಳಕಿನಿಂದ ದೂರ ಹೋಗಿ"
    else if language = "hi" then some "सीधी धूप से दूर हटें"
    else if language = "ta" then some "நேரடி சூரிய ஒளியிலிருந்து விலகி செல்லவும்"
    else if language = "te" then some "ప్రత్యక్ష సూర్యకాంతి నుండి దూరంగా వెళ్ళండి"
    else none
  else if issueType = "BLURRY" then
    if language = "en" then some "Hold camera steady and tap to focus"
    else if language = "kn" then some "ಕ್ಯಾಮೆರಾವನ್ನು ಸ್ಥಿರವಾಗಿ ಹಿಡಿದು ಫೋಕಸ್ ಮಾಡಲು ಟ್ಯಾಪ್ ಮಾಡಿ"
    else if language = "hi" then some "कैमरा स्थिर रखें और फोकस करने के लिए टैप करें"
    else if language = "ta" then some "கேமராவை நிலையாக பிடித்து ஃபோகஸ் செய்ய டேப் செய்யவும்"
    else if language = "te" then some "కెమెరాను స్థిరంగా పట్టుకుని ఫోకస్ చేయడానికి ట్యాప్ చేయండి"
    else none
  else if issueType = "NO_PRODUCE" then
    if language = "en" then some "Ensure produce fills most of the frame"
    else if language = "kn" then some "ಉತ್ಪನ್ನವು ಫ್ರೇಮ್‌ನ ಹೆಚ್ಚಿನ ಭಾಗವನ್ನು ತುಂಬಿರುವುದನ್ನು ಖಚಿತಪಡಿಸಿ"
    else if language = "hi" then some "सुनिश्चित करें कि उपज फ्रेम का अधिकांश हिस्सा भरे"
    else if language = "ta" then some "உற்பத்தி பெரும்பாலான பிரேமை நிரப்புவதை உறுதிசெய்யவும்"
    else if language = "te" then some "ఉత్పత్తి ఫ్రేమ్‌లో ఎక్కువ భాగం నింపుతుందని నిర్ధారించుకోండి"
    else none
  else if issueType = "LOW_RESOLUTION" then
    if language = "en" then some "Move closer or use higher camera resolution"
    else if language = "kn" then some "ಹತ್ತಿರ ಹೋಗಿ ಅಥವಾ ಹೆಚ್ಚಿನ ಕ್ಯಾಮೆರಾ ರೆಸಲ್ಯೂಶನ್ ಬಳಸಿ"
    else if language = "hi" then some "करीब जाएं या उच्च कैमरा रिज़ॉल्यूशन का उपयोग करें"
    else if language = "ta" then some "அருகில் செல்லவும் அல்லது உயர் கேமரா தெளிவுத்திறனைப் பயன்படுத்தவும்"
    else if language = "te" then some "దగ్గరగా వెళ్ళండి లేదా అధిక కెమెరా రిజల్యూషన్ ఉపయోగించండి"
    else none
  else none

/-- `PhotoValidationService.getSuggestion`:
`suggestions[issueType]?.[language] || suggestions[issueType]?.['en'] ||
'Please try again'`.  Every table entry is a nonempty string, so the falsy
chain coincides with defaulting on missing entries. -/
def getSuggestion (issueType language : String) : String :=
  match lookupSuggestion issueType language with
  | some s => s
  | none =>
      match lookupSuggestion issueType "en" with
      | some s => s
      | none => "Please try again"

/-- The request shape of the `ValidatePhotoQuality` gRPC handler (no image
buffer crosses the wire). -/
structure ValidatePhotoGrpcRequest where
  photoUrl : String
  width : ℝ
  height : ℝ

/-- The `ValidatePhotoQuality` gRPC handler: substitutes 1024/768 for a
falsy (zero) width/height — `req.width || 1024`, `req.height || 768` — and
delegates to `validatePhoto` with no image buffer. -/
def validatePhotoQuality (req : ValidatePhotoGrpcRequest) : PhotoValidationResult :=
  validatePhoto
    { photoUrl := req.photoUrl
      width := if req.width = 0 then 1024 else req.width
      height := if req.height = 0 then 768 else req.height
      imageBuffer := none }

/-! ## Helper lemmas -/

/-- The issue list of `predictRaw` in closed append form: one conditional
segment per check, in evaluation order. -/
theorem predictRaw_fst (stats : ImageStats) :
    (predictRaw stats).1 =
      (if stats.width < MIN_WIDTH ∨ stats.height < MIN_HEIGHT then
          [⟨QualityIssueType.LOW_RESOLUTION, 0.5⟩] else [])
      ++ (if stats.brightness < MIN_BRIGHTNESS then
            [⟨QualityIssueType.TOO_DARK, (MIN_BRIGHTNESS - stats.brightness) / MIN_BRIGHTNESS⟩]
          else if stats.brightness > MAX_BRIGHTNESS then
            [⟨QualityIssueType.TOO_BRIGHT,
              (stats.brightness - MAX_BRIGHTNESS) / (255 - MAX_BRIGHTNESS)⟩]
          else [])
      ++ (if stats.sharpness < MIN_SHARPNESS then
            [⟨QualityIssueType.BLURRY, (MIN_SHARPNESS - stats.sharpness) / MIN_SHARPNESS⟩]
          else [])
      ++ (if stats.hasProduceColors then [] else [⟨QualityIssueType.NO_PRODUCE, 0.8⟩]) := by
  unfold predictRaw
  split_ifs <;> simp_all

/-- The raw score of `predictRaw` in closed form: 1 minus one conditional
deduction per check. -/
theorem predictRaw_snd (stats : ImageStats) :
    (predictRaw stats).2 =
      1 - (if stats.width < MIN_WIDTH ∨ stats.height < MIN_HEIGHT then 0.2 else 0)
        - (if stats.brightness < MIN_BRIGHTNESS then
             0.25 * ((MIN_BRIGHTNESS - stats.brightness) / MIN_BRIGHTNESS)
           else if stats.brightness > MAX_BRIGHTNESS then
             0.25 * ((stats.brightness - MAX_BRIGHTNESS) / (255 - MAX_BRIGHTNESS))
           else 0)
        - (if stats.sharpness < MIN_SHARPNESS then
             0.3 * ((MIN_SHARPNESS - stats.sharpness) / MIN_SHARPNESS)
           else 0)
        - (if stats.hasProduceColors then 0 else 0.4) := by
  unfold predictRaw
  split_ifs <;> simp_all

/-- The issue list of `predict` is the accumulation pass's issue list. -/
theorem predict_issues (stats : ImageStats) :
    (predict stats).issues = (predictRaw stats).1 := rfl

/-- The grade of `predict` is the clamped raw score pushed through
`scoreToGrade`. -/
theorem predict_grade (stats : ImageStats) :
    (predict stats).grade = scoreToGrade (max 0 (min 1 (predictRaw stats).2)) := rfl

/-- The confidence of `predict` is `calculateConfidence` at the
accumulated issue list. -/
theorem predict_confidence (stats : ImageStats) :
    (predict stats).confidence = calculateConfidence stats (predictRaw stats).1 := rfl

/-- The sequential per-issue subtraction loop equals subtracting the sum of
the mapped deductions. -/
theorem foldl_sub_eq_sub_sum (issues : List QualityIssue) (c : ℝ) :
    issues.foldl (fun c issue => c - 0.1 * issue.severity) c
      = c - (issues.map (fun issue => 0.1 * issue.severity)).sum := by
  induction issues generalizing c with
  | nil => simp
  | cons head tail ih =>
      simp only [List.foldl_cons, List.map_cons, List.sum_cons, ih]
      ring

/-- `calculateConfidence` in closed form. -/
theorem calculateConfidence_eq (stats : ImageStats) (issues : List QualityIssue) :
    calculateConfidence stats issues =
      max 0.3 (min 0.99
        (0.9 - (issues.map (fun issue => 0.1 * issue.severity)).sum
          - (if stats.brightness > 180 ∨ stats.brightness < 60 then 0.1 else 0))) := by
  simp only [calculateConfidence, foldl_sub_eq_sub_sum]
  split_ifs <;> norm_num

/-- When the accumulation pass emits no issue, the raw score is 1 and the
grade is A. -/
theorem predict_issues_nil_grade (stats : ImageStats)
    (h : (predict stats).issues = []) : (predict stats).grade = Grade.A := by
  rw [predict_issues, predictRaw_fst] at h
  rw [predict_grade, predictRaw_snd]
  split_ifs at h ⊢ <;> simp_all <;> norm_num [scoreToGrade]

/-! ## Claim theorems -/

/-- Claim C1: for every request that `validatePhoto` processes, the result's
`isValid` field is true iff the prediction's grade is not REJECT and the
prediction's issue list is empty; consequently a request whose prediction
carries at least one issue gets `isValid = false` even when the grade is A,
B or C. -/
theorem validatePhoto_isValid_iff (request : PhotoValidationRequest) :
    (validatePhoto request).isValid = true ↔
      ((validatePhoto request).grade ≠ Grade.REJECT ∧
        (validatePhoto request).issues = []) := by
  simp only [validatePhoto, Bool.and_eq_true, decide_eq_true_eq,
    List.length_eq_zero, List.map_eq_nil_iff]

/-- Claim C2: the result's `qualityScore` is determined by the grade alone
through the fixed table A→0.95, B→0.75, C→0.55, REJECT→0.25, the
string-keyed lookup falling back to 0.5 on an unrecognized key, so the
score of every validation result lies in {0.95, 0.75, 0.55, 0.25}. -/
theorem validatePhoto_qualityScore_table :
    (∀ request : PhotoValidationRequest,
        (validatePhoto request).qualityScore = gradeToScore (validatePhoto request).grade) ∧
      gradeToScore Grade.A = 0.95 ∧ gradeToScore Grade.B = 0.75 ∧
      gradeToScore Grade.C = 0.55 ∧ gradeToScore Grade.REJECT = 0.25 ∧
      (∀ s : String, (scoreTable s).getD 0.5 ∈ ({0.95, 0.75, 0.55, 0.25, 0.5} : Set ℝ)) ∧
      (∀ request : PhotoValidationRequest,
        (validatePhoto request).qualityScore ∈ ({0.95, 0.75, 0.55, 0.25} : Set ℝ)) := by
  have hA : gradeToScore Grade.A = 0.95 := rfl
  have hB : gradeToScore Grade.B = 0.75 := rfl
  have hC : gradeToScore Grade.C = 0.55 := rfl
  have hR : gradeToScore Grade.REJECT = 0.25 := rfl
  refine ⟨fun request => rfl, hA, hB, hC, hR, ?_, ?_⟩
  · intro s
    unfold scoreTable
    split_ifs <;> norm_num [Set.mem_insert_iff, Set.mem_singleton_iff]
  · intro request
    have h : (validatePhoto request).qualityScore
        = gradeToScore (predict (getImageStats request)).grade := rfl
    rw [h]
    cases (predict (getImageStats request)).grade <;>
      norm_num [hA, hB, hC, hR, Set.mem_insert_iff, Set.mem_singleton_iff]

/-- Claim C4: for every statistics record, the prediction's confidence is
0.9 minus 0.1 × severity per emitted issue (unclamped severities), minus a
flat 0.1 whenever brightness < 60 or brightness > 180, clamped to
[0.3, 0.99]; hence the confidence always lies in [0.3, 0.99]. -/
theorem predict_confidence_formula (stats : ImageStats) :
    ((predict stats).confidence =
        max 0.3 (min 0.99
          (0.9 - ((predict stats).issues.map (fun issue => 0.1 * issue.severity)).sum
            - (if stats.brightness < 60 ∨ stats.brightness > 180 then 0.1 else 0)))) ∧
      0.3 ≤ (predict stats).confidence ∧ (predict stats).confidence ≤ 0.99 := by
  have h := calculateConfidence_eq stats (predictRaw stats).1
  refine ⟨?_, ?_, ?_⟩
  · rw [predict_confidence, predict_issues, h]
    by_cases hb : stats.brightness > 180 ∨ stats.brightness < 60
    · rw [if_pos hb, if_pos (Or.symm hb)]
    · rw [if_neg fun hc => hb (Or.symm hc), if_neg hb]
  · rw [predict_confidence, h]
    exact le_max_left _ _
  · rw [predict_confidence, h]
    exact max_le (by norm_num) (min_le_left _ _)

/-- Claim C8: the prediction's issue types always form an in-order
selection from LOW_RESOLUTION, brightness (one of TOO_DARK / TOO_BRIGHT),
BLURRY, NO_PRODUCE — each appearing at most once — and the two brightness
issues never co-occur. -/
theorem predict_issue_order (stats : ImageStats) :
    (List.Sublist ((predict stats).issues.map QualityIssue.type)
        [QualityIssueType.LOW_RESOLUTION, QualityIssueType.TOO_DARK,
          QualityIssueType.BLURRY, QualityIssueType.NO_PRODUCE] ∨
      List.Sublist ((predict stats).issues.map QualityIssue.type)
        [QualityIssueType.LOW_RESOLUTION, QualityIssueType.TOO_BRIGHT,
          QualityIssueType.BLURRY, QualityIssueType.NO_PRODUCE]) ∧
      ¬(QualityIssueType.TOO_DARK ∈ (predict stats).issues.map QualityIssue.type ∧
        QualityIssueType.TOO_BRIGHT ∈ (predict stats).issues.map QualityIssue.type) := by
  rw [predict_issues, predictRaw_fst]
  split_ifs <;> refine ⟨?_, ?_⟩ <;> simp [List.map_append]

/-- Claim C9: the grade is REJECT only when the issue list is non-empty (an
empty issue list forces the raw score to 1 and the grade to A), so the
orchestrator's `isValid` flag is equivalent to the issue list being empty —
the grade ≠ REJECT conjunct of `isValid` is redundant. -/
theorem predict_empty_grade_isValid :
    (∀ stats : ImageStats,
        (predict stats).issues.isEmpty = false ∨ (predict stats).grade = Grade.A) ∧
      (∀ request : PhotoValidationRequest,
        (validatePhoto request).isValid = (predict (getImageStats request)).issues.isEmpty) := by
  constructor
  · intro stats
    by_cases h : (predict stats).issues = []
    · exact Or.inr (predict_issues_nil_grade stats h)
    · exact Or.inl (by simp [h])
  · intro request
    cases hl : (predict (getImageStats request)).issues with
    | nil =>
        have hg := predict_issues_nil_grade _ hl
        simp [validatePhoto, hl, hg]
    | cons issue tail => simp [validatePhoto, hl]

/-- Claim C3: statistics meeting every threshold (width ≥ 1024,
height ≥ 768, 40 ≤ brightness ≤ 220, sharpness ≥ 100, produce colors
present) yield a prediction with no issues, raw score 1.0 and grade A; the
borderline brightness band can only affect the confidence, never the
grade. -/
theorem predict_all_good (stats : ImageStats)
    (hw : 1024 ≤ stats.width) (hh : 768 ≤ stats.height)
    (hb0 : 40 ≤ stats.brightness) (hb1 : stats.brightness ≤ 220)
    (hs : 100 ≤ stats.sharpness) (hp : stats.hasProduceColors = true) :
    (predict stats).issues = [] ∧ (predictRaw stats).2 = 1 ∧
      (predict stats).grade = Grade.A := by
  have h1 : ¬(stats.width < MIN_WIDTH ∨ stats.height < MIN_HEIGHT) := by
    push_neg
    exact ⟨by simpa [MIN_WIDTH] using hw, by simpa [MIN_HEIGHT] using hh⟩
  have h2 : ¬stats.brightness < MIN_BRIGHTNESS := by
    simpa [MIN_BRIGHTNESS, not_lt] using hb0
  have h3 : ¬stats.brightness > MAX_BRIGHTNESS := by
    simpa [MAX_BRIGHTNESS, not_lt] using hb1
  have h4 : ¬stats.sharpness < MIN_SHARPNESS := by
    simpa [MIN_SHARPNESS, not_lt] using hs
  have hscore : (predictRaw stats).2 = 1 := by
    simp [predictRaw_snd, h1, h2, h3, h4, hp]
  refine ⟨?_, hscore, ?_⟩
  · rw [predict_issues]
    simp [predictRaw_fst, h1, h2, h3, h4, hp]
  · rw [predict_grade, hscore]
    norm_num [scoreToGrade]

/-- Witness for C3 at the concrete statistics record
(1024, 768, brightness 60, contrast 50, sharpness 100, produce present);
brightness 60 sits at the edge of the borderline band yet the grade is A. -/
theorem predict_all_good_witness :
    (predict ⟨1024, 768, 60, 50, 100, true⟩).issues = [] ∧
      (predictRaw ⟨1024, 768, 60, 50, 100, true⟩).2 = 1 ∧
      (predict ⟨1024, 768, 60, 50, 100, true⟩).grade = Grade.A :=
  predict_all_good ⟨1024, 768, 60, 50, 100, true⟩ (by norm_num) (by norm_num)
    (by norm_num) (by norm_num) (by norm_num) rfl

/-- Claim C5: `extractStats` returns the defaulted statistics
(brightness 128, contrast 50, sharpness 150) for a buffer shorter than 100
bytes; otherwise the mean of the first min(1000, length) bytes, the
standard deviation of that window around the mean and contrast × 3; in both
cases produce colors are reported present iff the byte length exceeds
10000. -/
theorem extractStats_spec (buffer : List ℕ) (width height : ℝ) :
    extractStats buffer width height =
      if buffer.length < 100 then
        { width := width, height := height, brightness := 128, contrast := 50,
          sharpness := 150, hasProduceColors := decide (buffer.length > 10000) }
      else
        let n := min 1000 buffer.length
        let μ := ((buffer.take n).map (fun b => (b : ℝ))).sum / n
        let σ := Real.sqrt (((buffer.take n).map (fun b => ((b : ℝ) - μ) ^ 2)).sum / n)
        { width := width, height := height, brightness := μ, contrast := σ,
          sharpness := σ * 3, hasProduceColors := decide (buffer.length > 10000) } := by
  by_cases h : buffer.length < 100
  · simp [extractStats, mockBrightness, mockContrast, mockSharpness,
      mockProduceDetection, h]
  · simp [extractStats, mockBrightness, mockContrast, mockSharpness,
      mockProduceDetection, h]

/-- Claim C6: every request with no image buffer gets the neutral
statistics record (brightness 140, contrast 50, sharpness 180, produce
present) at the caller-declared width and height; consequently the request
(500, 500, no buffer) yields exactly one LOW_RESOLUTION issue, raw score
0.8, grade B, quality score 0.75 and `isValid = false`. -/
theorem validatePhoto_500_500 :
    (∀ (url : String) (w h : ℝ),
        getImageStats ⟨url, w, h, none⟩ =
          { width := w, height := h, brightness := 140, contrast := 50,
            sharpness := 180, hasProduceColors := true }) ∧
      (∀ url : String,
        (validatePhoto ⟨url, 500, 500, none⟩).issues = [⟨QualityIssueType.LOW_RESOLUTION⟩] ∧
        (predictRaw (getImageStats ⟨url, 500, 500, none⟩)).2 = 0.8 ∧
        (validatePhoto ⟨url, 500, 500, none⟩).grade = Grade.B ∧
        (validatePhoto ⟨url, 500, 500, none⟩).qualityScore = 0.75 ∧
        (validatePhoto ⟨url, 500, 500, none⟩).isValid = false) := by
  refine ⟨fun url w h => rfl, fun url => ?_⟩
  have hfst : (predictRaw (⟨500, 500, 140, 50, 180, true⟩ : ImageStats)).1
      = [⟨QualityIssueType.LOW_RESOLUTION, 0.5⟩] := by
    rw [predictRaw_fst]
    norm_num [MIN_WIDTH, MIN_HEIGHT, MIN_BRIGHTNESS, MAX_BRIGHTNESS, MIN_SHARPNESS]
  have hsnd : (predictRaw (⟨500, 500, 140, 50, 180, true⟩ : ImageStats)).2 = 0.8 := by
    rw [predictRaw_snd]
    norm_num [MIN_WIDTH, MIN_HEIGHT, MIN_BRIGHTNESS, MAX_BRIGHTNESS, MIN_SHARPNESS]
  have hgrade : (predict (⟨500, 500, 140, 50, 180, true⟩ : ImageStats)).grade = Grade.B := by
    rw [predict_grade, hsnd]
    norm_num [scoreToGrade, min_def, max_def]
  have hissues : (validatePhoto ⟨url, 500, 500, none⟩).issues
      = [⟨QualityIssueType.LOW_RESOLUTION⟩] := by
    have hi : (validatePhoto ⟨url, 500, 500, none⟩).issues
        = ((predictRaw (⟨500, 500, 140, 50, 180, true⟩ : ImageStats)).1).map
            (fun issue => (⟨issue.type⟩ : PhotoIssue)) := rfl
    rw [hi, hfst]
    rfl
  refine ⟨hissues, hsnd, hgrade, ?_, ?_⟩
  · have hq : (validatePhoto ⟨url, 500, 500, none⟩).qualityScore
        = gradeToScore (predict (⟨500, 500, 140, 50, 180, true⟩ : ImageStats)).grade := rfl
    rw [hq, hgrade]
    rfl
  · have hv : (validatePhoto ⟨url, 500, 500, none⟩).isValid
        = (decide ((predict (⟨500, 500, 140, 50, 180, true⟩ : ImageStats)).grade ≠ Grade.REJECT)
            && decide ((predictRaw (⟨500, 500, 140, 50, 180, true⟩ : ImageStats)).1.length = 0)) := rfl
    rw [hv, hfst]
    simp

/-- Claim C7: `getSuggestion` always returns a string along the fallback
chain exact (type, language) entry → (type, "en") entry → generic
"Please try again"; in particular the Hindi TOO_DARK text for
("TOO_DARK", "hi"), the English TOO_DARK text for the unknown language
("TOO_DARK", "xx"), and the generic fallback for the unknown type
("NOT_A_TYPE", "en"). -/
theorem getSuggestion_fallback :
    (∀ issueType language : String,
        getSuggestion issueType language =
          ((lookupSuggestion issueType language).orElse
              (fun _ => lookupSuggestion issueType "en")).getD "Please try again") ∧
      getSuggestion "TOO_DARK" "hi" = "तेज रोशनी में जाएं या फ्लैश का उपयोग करें" ∧
      getSuggestion "TOO_DARK" "xx" = "Move to brighter lighting or use flash" ∧
      getSuggestion "NOT_A_TYPE" "en" = "Please try again" := by
  refine ⟨?_, rfl, rfl, rfl⟩
  intro issueType language
  rcases h1 : lookupSuggestion issueType language with _ | s1 <;>
    rcases h2 : lookupSuggestion issueType "en" with _ | s2 <;>
      simp [getSuggestion, h1, h2, Option.orElse]

/-- Claim C10: the gRPC handler substitutes 1024 for a falsy (zero) width
and 768 for a falsy height before validating; a request declaring width 0
and height 0 is therefore validated exactly as a 1024×768 request and its
result carries no LOW_RESOLUTION issue. -/
theorem validatePhotoQuality_defaults :
    (∀ req : ValidatePhotoGrpcRequest,
        validatePhotoQuality req =
          validatePhoto
            { photoUrl := req.photoUrl
              width := if req.width = 0 then 1024 else req.width
              height := if req.height = 0 then 768 else req.height
              imageBuffer := none }) ∧
      (∀ url : String,
        validatePhotoQuality ⟨url, 0, 0⟩ = validatePhoto ⟨url, 1024, 768, none⟩ ∧
          QualityIssueType.LOW_RESOLUTION ∉
            ((validatePhotoQuality ⟨url, 0, 0⟩).issues.map PhotoIssue.type)) := by
  have hgen : ∀ req : ValidatePhotoGrpcRequest,
      validatePhotoQuality req =
        validatePhoto
          { photoUrl := req.photoUrl
            width := if req.width = 0 then 1024 else req.width
            height := if req.height = 0 then 768 else req.height
            imageBuffer := none } := fun req => rfl
  refine ⟨hgen, fun url => ?_⟩
  have heq : validatePhotoQuality ⟨url, 0, 0⟩ = validatePhoto ⟨url, 1024, 768, none⟩ := by
    rw [hgen]
    norm_num
  refine ⟨heq, ?_⟩
  rw [heq]
  have hfst : (predictRaw (⟨1024, 768, 140, 50, 180, true⟩ : ImageStats)).1 = [] := by
    rw [predictRaw_fst]
    norm_num [MIN_WIDTH, MIN_HEIGHT, MIN_BRIGHTNESS, MAX_BRIGHTNESS, MIN_SHARPNESS]
  have hi : (validatePhoto ⟨url, 1024, 768, none⟩).issues
      = ((predictRaw (⟨1024, 768, 140, 50, 180, true⟩ : ImageStats)).1).map
          (fun issue => (⟨issue.type⟩ : PhotoIssue)) := rfl
  rw [hi, hfst]
  simp

end

end CropfreshAI
